import Mathlib

/-!
Verification of the MCP process/session manager of this repository.

The definitions below are a shallow embedding of the two authoritative
Python modules named by the claims:

* `src/src/mcp_client.py` — `MCPClient` (multi-server client, result
  consolidation, per-server start/stop/status), and
* `src/src/mcp_adapter.py` — `AmasseMCPClient` / `MCPManager`
  (subprocess supervision, JSON-RPC-over-stdio tool calls).

Pure computations (result consolidation, request serialization) are
translated directly.  Stateful and effectful code (subprocess spawning,
blocking `readline`, `terminate`/`kill`) is embedded as total functions
over an explicit description of the environment's behaviour (what the
blocking read eventually yields, how the child process reacts to
signals), returning the response value together with the session state
and the sequence of process-control actions performed.
-/

namespace SecMCP

/-! ### String ordering

Python's `sorted` on strings compares lexicographically by Unicode code
point.  `strLe` is that order, written over `String.toList` so that it
evaluates by kernel reduction. -/

/-- Lexicographic code-point comparison of character lists: the order
Python uses to compare strings. -/
def strLeChars : List Char → List Char → Bool
  | [], _ => true
  | _ :: _, [] => false
  | a :: as, b :: bs => if a = b then strLeChars as bs else decide (a < b)

/-- Python's string order: lexicographic by code point. -/
def strLe (a b : String) : Bool :=
  strLeChars a.toList b.toList

theorem strLeChars_total : ∀ as bs, strLeChars as bs = true ∨ strLeChars bs as = true
  | [], _ => Or.inl rfl
  | _ :: _, [] => Or.inr rfl
  | a :: as, b :: bs => by
    by_cases hab : a = b
    · subst hab
      simpa [strLeChars] using strLeChars_total as bs
    · rcases lt_or_gt_of_ne hab with h | h
      · exact Or.inl (by simp [strLeChars, hab, h])
      · exact Or.inr (by simp [strLeChars, Ne.symm hab, h])

theorem strLeChars_trans : ∀ as bs cs, strLeChars as bs = true → strLeChars bs cs = true →
    strLeChars as cs = true
  | [], _, _, _, _ => rfl
  | _ :: _, [], _, h, _ => by simp [strLeChars] at h
  | _ :: _, _ :: _, [], _, h => by simp [strLeChars] at h
  | a :: as, b :: bs, c :: cs, h₁, h₂ => by
    by_cases hab : a = b
    · subst hab
      by_cases hac : a = c
      · subst hac
        simp only [strLeChars, if_pos rfl] at h₁ h₂ ⊢
        exact strLeChars_trans as bs cs h₁ h₂
      · simp only [strLeChars, if_pos rfl] at h₁
        simpa [strLeChars, hac] using h₂
    · by_cases hbc : b = c
      · subst hbc
        simpa [strLeChars, hab] using h₁
      · simp only [strLeChars, if_neg hab, decide_eq_true_eq] at h₁
        simp only [strLeChars, if_neg hbc, decide_eq_true_eq] at h₂
        have hac : a < c := lt_trans h₁ h₂
        simp [strLeChars, ne_of_lt hac, hac]

theorem strLeChars_antisymm : ∀ as bs, strLeChars as bs = true → strLeChars bs as = true →
    as = bs
  | [], [], _, _ => rfl
  | [], _ :: _, _, h => by simp [strLeChars] at h
  | _ :: _, [], h, _ => by simp [strLeChars] at h
  | a :: as, b :: bs, h₁, h₂ => by
    by_cases hab : a = b
    · subst hab
      simp only [strLeChars, if_pos rfl] at h₁ h₂
      exact congrArg (a :: ·) (strLeChars_antisymm as bs h₁ h₂)
    · simp only [strLeChars, if_neg hab, decide_eq_true_eq] at h₁
      simp only [strLeChars, if_neg (Ne.symm hab), decide_eq_true_eq] at h₂
      exact absurd h₂ (not_lt_of_gt h₁)

instance : IsTotal String (fun a b => strLe a b = true) :=
  ⟨fun a b => strLeChars_total a.toList b.toList⟩

instance : IsTrans String (fun a b => strLe a b = true) :=
  ⟨fun a b c => strLeChars_trans a.toList b.toList c.toList⟩

instance : IsAntisymm String (fun a b => strLe a b = true) := by
  refine ⟨fun a b h₁ h₂ => ?_⟩
  have : a.toList = b.toList := strLeChars_antisymm a.toList b.toList h₁ h₂
  cases a
  cases b
  exact congrArg String.mk (by simpa [String.toList] using this)

/-- Python `sorted(list(s))` applied to a set accumulated from lists of
strings: deduplicate, then sort ascending by code point. -/
def pySortedSet (l : List String) : List String :=
  List.insertionSort (fun a b => strLe a b = true) l.dedup

theorem pySortedSet_sorted (l : List String) :
    (pySortedSet l).Sorted (fun a b => strLe a b = true) :=
  List.sorted_insertionSort _ _

theorem pySortedSet_nodup (l : List String) : (pySortedSet l).Nodup :=
  (List.perm_insertionSort _ _).nodup_iff.mpr (List.nodup_dedup l)

theorem mem_pySortedSet {s : String} {l : List String} :
    s ∈ pySortedSet l ↔ s ∈ l := by
  rw [pySortedSet, (List.perm_insertionSort _ _).mem_iff, List.mem_dedup]

theorem pySortedSet_eq_of_mem_iff {l₁ l₂ : List String}
    (h : ∀ s, s ∈ l₁ ↔ s ∈ l₂) : pySortedSet l₁ = pySortedSet l₂ := by
  refine List.eq_of_perm_of_sorted ?_ (pySortedSet_sorted l₁) (pySortedSet_sorted l₂)
  refine (List.perm_ext_iff_of_nodup (pySortedSet_nodup l₁) (pySortedSet_nodup l₂)).mpr ?_
  intro s
  rw [mem_pySortedSet, mem_pySortedSet]
  exact h s

/-! ### Result consolidator

Embedding of `MCPClient._consolidate_results` (src/src/mcp_client.py,
lines 240-266).  A per-server raw result is either not a dictionary at
all, or a dictionary of which the consolidator inspects three keys:
`success` (recorded here as the Python truthiness of the stored value,
or `none` when the key is absent), `subdomains` and
`combined_subdomains` (lists of strings, `none` when absent). -/

/-- A raw per-server result as inspected by `_consolidate_results`. -/
inductive SResult where
  | nonDict (val : String)
  | rdict (success : Option Bool) (subdomains : Option (List String))
      (combined : Option (List String))
deriving DecidableEq, Repr

/-- The guard `isinstance(result, dict) and result.get("success", False)`. -/
def isSuccessResult : SResult → Bool
  | .rdict success _ _ => success.getD false
  | .nonDict _ => false

/-- The items the success branch adds to the set:
`result["subdomains"]` when that key is present, otherwise
`result["combined_subdomains"]` when that key is present, otherwise
nothing. -/
def resultItems : SResult → List String
  | .rdict _ (some l) _ => l
  | .rdict _ none (some l) => l
  | .rdict _ none none => []
  | .nonDict _ => []

/-- Servers appended to `successful_servers` by the loop, in iteration
order of the results mapping. -/
def successfulServers (results : List (String × SResult)) : List String :=
  (results.filter fun p => isSuccessResult p.2).map Prod.fst

/-- Servers appended to `failed_servers` by the loop. -/
def failedServers (results : List (String × SResult)) : List String :=
  (results.filter fun p => !isSuccessResult p.2).map Prod.fst

/-- Every string added to the `all_subdomains` set across the loop:
only successful dictionary results contribute. -/
def allSubdomains (results : List (String × SResult)) : List String :=
  (results.filter fun p => isSuccessResult p.2).flatMap fun p => resultItems p.2

/-- The consolidated record `_consolidate_results` returns. -/
structure Consolidated where
  domain : String
  method : String
  success : Bool
  subdomains : List String
  total_count : Nat
  successful_servers : List String
  failed_servers : List String
  server_results : List (String × SResult)
  timestamp : Nat
deriving DecidableEq, Repr

/-- Embeds `MCPClient._consolidate_results`.  The results mapping is a
Python dict (unique keys, insertion order); `now` stands for
`time.time()`. -/
def consolidateResults (results : List (String × SResult)) (domain method : String)
    (now : Nat) : Consolidated :=
  { domain := domain
    method := method
    success := decide (0 < (successfulServers results).length)
    subdomains := pySortedSet (allSubdomains results)
    total_count := (pySortedSet (allSubdomains results)).length
    successful_servers := successfulServers results
    failed_servers := failedServers results
    server_results := results
    timestamp := now }

theorem successfulServers_append_failedServers_perm (results : List (String × SResult)) :
    (successfulServers results ++ failedServers results).Perm (results.map Prod.fst) := by
  unfold successfulServers failedServers
  rw [← List.map_append]
  exact (List.filter_append_perm _ results).map Prod.fst

theorem mem_allSubdomains {s : String} {results : List (String × SResult)} :
    s ∈ allSubdomains results ↔
      ∃ p ∈ results, isSuccessResult p.2 = true ∧ s ∈ resultItems p.2 := by
  unfold allSubdomains
  simp only [List.mem_flatMap, List.mem_filter]
  constructor
  · rintro ⟨p, ⟨hp, hs⟩, hi⟩
    exact ⟨p, hp, hs, hi⟩
  · rintro ⟨p, hp, hs, hi⟩
    exact ⟨p, ⟨hp, hs⟩, hi⟩

theorem mem_consolidated_subdomains {s : String} {results : List (String × SResult)}
    {domain method : String} {now : Nat} :
    s ∈ (consolidateResults results domain method now).subdomains ↔
      ∃ p ∈ results, isSuccessResult p.2 = true ∧ s ∈ resultItems p.2 := by
  rw [consolidateResults]
  exact mem_pySortedSet.trans mem_allSubdomains

/-- Claim C1: consolidating a fan-out's per-server results over N
targeted servers yields disjoint `successful_servers` and
`failed_servers` lists, every targeted server appears in exactly one of
them (their concatenation is a permutation of the targeted-server
list), and their lengths sum to N. -/
theorem consolidate_partitions_servers (results : List (String × SResult))
    (domain method : String) (now : Nat)
    (hnd : (results.map Prod.fst).Nodup) :
    (consolidateResults results domain method now).successful_servers.Disjoint
        (consolidateResults results domain method now).failed_servers ∧
    ((consolidateResults results domain method now).successful_servers ++
        (consolidateResults results domain method now).failed_servers).Perm
        (results.map Prod.fst) ∧
    (consolidateResults results domain method now).successful_servers.length +
        (consolidateResults results domain method now).failed_servers.length
      = results.length := by
  have hperm := successfulServers_append_failedServers_perm results
  have hnodup : (successfulServers results ++ failedServers results).Nodup :=
    hperm.nodup_iff.mpr hnd
  simp only [consolidateResults]
  refine ⟨(List.nodup_append.mp hnodup).2.2, hperm, ?_⟩
  have := hperm.length_eq
  simpa using this

/-- Witness for C1 at a concrete two-server fan-out: one dict result
with truthy success, one non-dict result. -/
theorem consolidate_partitions_servers_witness :
    (([("A", SResult.rdict (some true) (some ["a.x"]) none),
        ("B", SResult.nonDict "spawn failure")] :
          List (String × SResult)).map Prod.fst).Nodup ∧
    (consolidateResults
        [("A", SResult.rdict (some true) (some ["a.x"]) none),
         ("B", SResult.nonDict "spawn failure")] "example.com" "passive" 0).successful_servers.length +
      (consolidateResults
        [("A", SResult.rdict (some true) (some ["a.x"]) none),
         ("B", SResult.nonDict "spawn failure")] "example.com" "passive" 0).failed_servers.length
      = 2 :=
  ⟨by decide,
    (consolidate_partitions_servers
      [("A", SResult.rdict (some true) (some ["a.x"]) none),
       ("B", SResult.nonDict "spawn failure")] "example.com" "passive" 0 (by decide)).2.2⟩

/-- Claim C3: the consolidated subdomain sequence is the deduplicated
(exact, case-sensitive string match) union of the items contributed by
the per-server results, returned sorted; it is invariant under
reordering the per-server inputs; and the spec's concrete two-list
example evaluates as stated. -/
theorem consolidate_dedup_union_sorted (results results2 : List (String × SResult))
    (domain method : String) (now : Nat) (hperm : results.Perm results2) :
    (consolidateResults results domain method now).subdomains.Sorted
        (fun a b => strLe a b = true) ∧
    (consolidateResults results domain method now).subdomains.Nodup ∧
    (∀ s, s ∈ (consolidateResults results domain method now).subdomains ↔
        s ∈ allSubdomains results) ∧
    (consolidateResults results domain method now).subdomains
      = (consolidateResults results2 domain method now).subdomains ∧
    (consolidateResults
        [("server1", SResult.rdict (some true) (some ["a.example.com", "b.example.com"]) none),
         ("server2", SResult.rdict (some true) (some ["b.example.com", "c.example.com"]) none)]
        "example.com" "passive" 0).subdomains
      = ["a.example.com", "b.example.com", "c.example.com"] := by
  refine ⟨pySortedSet_sorted _, pySortedSet_nodup _, fun s => mem_pySortedSet, ?_, by decide⟩
  simp only [consolidateResults]
  refine pySortedSet_eq_of_mem_iff fun s => ?_
  rw [mem_allSubdomains, mem_allSubdomains]
  constructor
  · rintro ⟨p, hp, h⟩
    exact ⟨p, hperm.mem_iff.mp hp, h⟩
  · rintro ⟨p, hp, h⟩
    exact ⟨p, hperm.mem_iff.mpr hp, h⟩

/-- Witness for C3: the spec's two per-server lists, consolidated in
both input orders, give the same (stated) sorted deduplicated list. -/
theorem consolidate_dedup_union_sorted_witness :
    (([("server1", SResult.rdict (some true) (some ["a.example.com", "b.example.com"]) none),
       ("server2", SResult.rdict (some true) (some ["b.example.com", "c.example.com"]) none)] :
        List (String × SResult)).Perm
      [("server2", SResult.rdict (some true) (some ["b.example.com", "c.example.com"]) none),
       ("server1", SResult.rdict (some true) (some ["a.example.com", "b.example.com"]) none)]) ∧
    (consolidateResults
        [("server1", SResult.rdict (some true) (some ["a.example.com", "b.example.com"]) none),
         ("server2", SResult.rdict (some true) (some ["b.example.com", "c.example.com"]) none)]
        "example.com" "passive" 0).subdomains
      = (consolidateResults
          [("server2", SResult.rdict (some true) (some ["b.example.com", "c.example.com"]) none),
           ("server1", SResult.rdict (some true) (some ["a.example.com", "b.example.com"]) none)]
          "example.com" "passive" 0).subdomains :=
  ⟨by decide,
    (consolidate_dedup_union_sorted
      [("server1", SResult.rdict (some true) (some ["a.example.com", "b.example.com"]) none),
       ("server2", SResult.rdict (some true) (some ["b.example.com", "c.example.com"]) none)]
      [("server2", SResult.rdict (some true) (some ["b.example.com", "c.example.com"]) none),
       ("server1", SResult.rdict (some true) (some ["a.example.com", "b.example.com"]) none)]
      "example.com" "passive" 0 (by decide)).2.2.2.1⟩

/-- Claim C4: the aggregate success flag is true iff
`successful_servers` is non-empty, and when every per-server result is
a failure the record (returned normally, not raised) has success false
and an empty `successful_servers` list. -/
theorem consolidate_success_iff_nonempty (results : List (String × SResult))
    (domain method : String) (now : Nat) :
    ((consolidateResults results domain method now).success = true ↔
        (consolidateResults results domain method now).successful_servers ≠ []) ∧
    ((∀ p ∈ results, isSuccessResult p.2 = false) →
        (consolidateResults results domain method now).success = false ∧
        (consolidateResults results domain method now).successful_servers = []) := by
  constructor
  · simp only [consolidateResults, decide_eq_true_eq]
    rw [List.length_pos]
  · intro hall
    have hfilter : results.filter (fun p => isSuccessResult p.2) = [] := by
      rw [List.filter_eq_nil_iff]
      intro p hp
      simp [hall p hp]
    simp [consolidateResults, successfulServers, hfilter]

/-- Witness for C4 at a total-failure fan-out: two failed servers. -/
theorem consolidate_success_iff_nonempty_witness :
    (∀ p ∈ ([("A", SResult.rdict (some false) none none),
             ("B", SResult.nonDict "timeout")] : List (String × SResult)),
        isSuccessResult p.2 = false) ∧
    (consolidateResults
        [("A", SResult.rdict (some false) none none), ("B", SResult.nonDict "timeout")]
        "example.com" "passive" 0).success = false ∧
    (consolidateResults
        [("A", SResult.rdict (some false) none none), ("B", SResult.nonDict "timeout")]
        "example.com" "passive" 0).successful_servers = [] :=
  ⟨by decide,
    (consolidate_success_iff_nonempty
      [("A", SResult.rdict (some false) none none), ("B", SResult.nonDict "timeout")]
      "example.com" "passive" 0).2 (by decide)⟩

/-- Claim C10: a string reaches the consolidated subdomain list iff some
per-server result that is a dictionary with truthy success carries it;
items carried only by failed, malformed or non-dictionary results are
excluded; and the raw per-server results are retained unmodified in the
`server_results` field. -/
theorem consolidate_only_successful_contribute (results : List (String × SResult))
    (domain method : String) (now : Nat) :
    (∀ s, s ∈ (consolidateResults results domain method now).subdomains ↔
        ∃ p ∈ results, isSuccessResult p.2 = true ∧ s ∈ resultItems p.2) ∧
    (∀ p ∈ results, isSuccessResult p.2 = false →
        ∀ s ∈ resultItems p.2,
          (∀ q ∈ results, isSuccessResult q.2 = true → s ∉ resultItems q.2) →
          s ∉ (consolidateResults results domain method now).subdomains) ∧
    (consolidateResults results domain method now).server_results = results := by
  refine ⟨fun s => mem_consolidated_subdomains, ?_, rfl⟩
  intro p _ _ s _ hnone hmem
  obtain ⟨q, hq, hqs, hqi⟩ := mem_consolidated_subdomains.mp hmem
  exact hnone q hq hqs hqi

/-! ### JSON requests and wire framing

The clients build their requests as Python dict literals and serialize
them with `json.dumps(request)`.  `JVal` covers the value shapes those
requests contain (strings, integers, booleans, null, string-keyed
objects); `dumps` reproduces `json.dumps` with its default separators
`", "` and `": "` and insertion-order key iteration. -/

/-- JSON values as they occur in the clients' requests. -/
inductive JVal where
  | str (s : String)
  | num (n : Int)
  | jbool (b : Bool)
  | null
  | obj (fields : List (String × JVal))
deriving Repr

/-- JSON string escaping as `json.dumps` performs it on the characters
these requests contain. -/
def escapeChar (c : Char) : String :=
  if c = '"' then "\\\""
  else if c = '\\' then "\\\\"
  else if c = '\n' then "\\n"
  else if c = '\r' then "\\r"
  else if c = '\t' then "\\t"
  else String.singleton c

def escapeStr (s : String) : String :=
  String.join (s.toList.map escapeChar)

/-- A JSON string literal: quotes around the escaped text. -/
def jstr (s : String) : String := "\"" ++ escapeStr s ++ "\""

mutual

/-- Embeds `json.dumps` with default settings. -/
def dumps : JVal → String
  | .str s => jstr s
  | .num n => toString n
  | .jbool b => if b then "true" else "false"
  | .null => "null"
  | .obj fields => "\x7b" ++ dumpsFields fields ++ "\x7d"

def dumpsFields : List (String × JVal) → String
  | [] => ""
  | [(k, v)] => jstr k ++ ": " ++ dumps v
  | (k, v) :: rest => jstr k ++ ": " ++ dumps v ++ ", " ++ dumpsFields rest

end

/-- The request dict `MCPClient.call_tool` builds (src/src/mcp_client.py,
lines 141-147): `method` and `params` only — no `id` key. -/
def clientCallRequest (tool : String) (args : List (String × JVal)) : JVal :=
  .obj [("method", .str "tools/call"),
        ("params", .obj [("name", .str tool), ("arguments", .obj args)])]

/-- The request dict `MCPClient.list_available_tools` builds. -/
def clientListRequest : JVal :=
  .obj [("method", .str "tools/list"), ("params", .obj [])]

/-- The request dict `AmasseMCPClient.call_tool` builds
(src/src/mcp_adapter.py, lines 152-160): constant `"id": 1`. -/
def adapterCallRequest (tool : String) (args : List (String × JVal)) : JVal :=
  .obj [("jsonrpc", .str "2.0"), ("id", .num 1), ("method", .str "tools/call"),
        ("params", .obj [("name", .str tool), ("arguments", .obj args)])]

/-- The request dict `AmasseMCPClient.list_tools` builds: constant
`"id": 1`. -/
def adapterListRequest : JVal :=
  .obj [("jsonrpc", .str "2.0"), ("id", .num 1), ("method", .str "tools/list")]

/-- The text `MCPClient.call_tool` writes to the child's stdin:
`json.dumps(request) + "\\n"` — the source appends the two-character
escape sequence backslash-n, not a newline. -/
def clientWireLine (tool : String) (args : List (String × JVal)) : String :=
  dumps (clientCallRequest tool args) ++ "\\n"

/-- The text `MCPClient.list_available_tools` writes: same
two-character `"\\n"` suffix. -/
def clientListWireLine : String :=
  dumps clientListRequest ++ "\\n"

/-- The text `AmasseMCPClient.call_tool` writes to the child's stdin:
`json.dumps(request) + "\n"` — a genuine newline. -/
def adapterWireLine (tool : String) (args : List (String × JVal)) : String :=
  dumps (adapterCallRequest tool args) ++ "\n"

/-- The value stored under the `id` key of a request, when present. -/
def requestIdField : JVal → Option JVal
  | .obj fields => fields.lookup "id"
  | _ => none

/-! ### Sessions, tool calls and status

Embeddings of `AmasseMCPClient.call_tool`, `MCPManager.call_tool`,
`MCPClient.call_tool` and `MCPClient.get_server_status`.  The blocking
exchange with the subprocess is represented by an explicit description
of what it eventually yields: a parsed response line, end-of-stream
(the process exited or closed stdout), or a raised exception (caught by
the surrounding `try`). -/

/-- Status enum of src/src/mcp_adapter.py (`MCPServerStatus`). -/
inductive MCPServerStatus where
  | stopped
  | running
  | error
  | unknown
deriving DecidableEq, Repr

/-- The `MCPResponse` dataclass of src/src/mcp_adapter.py. -/
structure MCPResponse where
  success : Bool
  data : Option JVal
  error : Option String
  server_name : Option String

/-- Outcome of `AmasseMCPClient.call_tool`'s write-then-readline
exchange: a response line parsed as a dict (with its `error` key, when
present, carrying an optional `message`, and its `result` value), EOF,
or an exception. -/
inductive AdapterRead where
  | line (errField : Option (Option String)) (resultField : Option JVal)
  | eof
  | raised (msg : String)

/-- Embeds `AmasseMCPClient.call_tool` (src/src/mcp_adapter.py, lines
141-197).  Returns the response together with the session status after
the call; the source never assigns `self.status` in this method, so the
status is passed through unchanged on every path. -/
def adapterCallTool (status : MCPServerStatus) (serverName : String)
    (read : AdapterRead) : MCPResponse × MCPServerStatus :=
  if status ≠ MCPServerStatus.running then
    (⟨false, none, some "MCP server is not running", some serverName⟩, status)
  else
    match read with
    | .line (some msg) _ =>
        (⟨false, none, some (msg.getD "Unknown error"), some serverName⟩, status)
    | .line none result =>
        (⟨true, result, none, some serverName⟩, status)
    | .eof =>
        (⟨false, none, some "No response from MCP server", some serverName⟩, status)
    | .raised msg =>
        (⟨false, none, some msg, some serverName⟩, status)

/-- Embeds `MCPManager.call_tool` (src/src/mcp_adapter.py, lines
273-281): unknown server names short-circuit to a failed response;
otherwise the named client's result is returned. -/
def managerCallTool (registered : List String) (serverName : String)
    (delegated : MCPResponse) : MCPResponse :=
  if serverName ∈ registered then delegated
  else ⟨false, none, some ("Server " ++ serverName ++ " not registered"), none⟩

/-- The `process` attribute of a server record in src/src/mcp_client.py:
`None`, or a handle whose `returncode` is `none` while running and
`some c` once the process has exited. -/
inductive ProcField where
  | noProc
  | proc (returncode : Option Int)
deriving DecidableEq, Repr

/-- The per-server fields of `MCPServerConfig` that
`MCPClient.call_tool` inspects. -/
structure ClientServer where
  enabled : Bool
  procField : ProcField
deriving DecidableEq, Repr

/-- Outcome of `MCPClient.call_tool`'s write-then-readline exchange. -/
inductive ClientRead where
  | line (response : JVal)
  | eof
  | raised (msg : String)

/-- The dict `MCPClient.call_tool` returns: either one of the
`(\x7b"error": msg\x7d)` literals, or the parsed response line. -/
inductive ClientCallResult where
  | errDict (msg : String)
  | parsed (response : JVal)

/-- Embeds `MCPClient.call_tool` (src/src/mcp_client.py, lines
129-167).  Every failure path returns an error dict; nothing escapes
the enclosing `try`. -/
def clientCallTool (servers : List (String × ClientServer)) (serverName : String)
    (read : ClientRead) : ClientCallResult :=
  match servers.lookup serverName with
  | none => .errDict ("Server " ++ serverName ++ " not found")
  | some server =>
    if !server.enabled then .errDict ("Server " ++ serverName ++ " is disabled")
    else
      match server.procField with
      | .noProc => .errDict "Server not running or not accessible"
      | .proc _ =>
        match read with
        | .line response => .parsed response
        | .eof => .errDict "No response from server"
        | .raised msg => .errDict msg

/-- Python truthiness of a JSON value. -/
def jTruthy : JVal → Bool
  | .str s => decide (s ≠ "")
  | .num n => decide (n ≠ 0)
  | .jbool b => b
  | .null => false
  | .obj fields => !fields.isEmpty

/-- How downstream consumers read a call result's success:
`result.get("success", False)` with Python truthiness.  An error dict
carries no `success` key, so it reads as a failure. -/
def clientResultSuccess : ClientCallResult → Bool
  | .errDict _ => false
  | .parsed (.obj fields) => (fields.lookup "success").elim false jTruthy
  | .parsed _ => false

/-- The error message of a call result, when it is an error dict. -/
def clientResultError : ClientCallResult → Option String
  | .errDict msg => some msg
  | .parsed _ => none

/-- Embeds `MCPClient.get_server_status` for one server
(src/src/mcp_client.py, lines 309-323): the state is derived from the
`enabled` flag and the process handle's `returncode` at query time. -/
def getServerStatus (enabled : Bool) (p : ProcField) : String :=
  if !enabled then "disabled"
  else
    match p with
    | .noProc => "stopped"
    | .proc none => "running"
    | .proc (some _) => "failed"

/-- Claim C6 (failing evaluation): for the concrete tool call
`call_tool(server, "passive_subdomain_enum", ("domain": "test"))`,
`MCPClient` writes text that contains no newline anywhere — it ends in
the two characters backslash-n — so the write is never a
newline-terminated line; `list_available_tools` has the same flaw.  The
sibling `AmasseMCPClient.call_tool` writes a single newline-terminated
line for the same call, which is the behaviour the claim describes. -/
theorem client_wire_not_newline_terminated :
    ('\n' ∉ (clientWireLine "passive_subdomain_enum" [("domain", JVal.str "test")]).toList) ∧
    ((clientWireLine "passive_subdomain_enum" [("domain", JVal.str "test")]).toList.getLast?
      = some 'n') ∧
    ((clientWireLine "passive_subdomain_enum"
        [("domain", JVal.str "test")]).toList.reverse.tail.head? = some '\\') ∧
    ('\n' ∉ clientListWireLine.toList) ∧
    ((adapterWireLine "passive_subdomain_enum" [("domain", JVal.str "test")]).toList.getLast?
      = some '\n') ∧
    ((adapterWireLine "passive_subdomain_enum" [("domain", JVal.str "test")]).toList.count '\n'
      = 1) := by
  decide

/-- Claim C7 counterexample: the request `MCPClient.call_tool` builds
for a concrete call carries no `id` field at all, and two successive
`AmasseMCPClient` requests both carry the constant id 1, so request ids
are not strictly increasing. -/
theorem request_id_counterexample :
    requestIdField (clientCallRequest "passive_subdomain_enum" [("domain", JVal.str "test")])
      = none ∧
    requestIdField (adapterCallRequest "passive_subdomain_enum" [("domain", JVal.str "test")])
      = some (JVal.num 1) ∧
    requestIdField (adapterCallRequest "active_subdomain_enum" [("domain", JVal.str "test")])
      = some (JVal.num 1) :=
  ⟨rfl, rfl, rfl⟩

/-- Claim C7 (amended): `MCPClient` requests carry no `id` field at
all, while every `AmasseMCPClient` request — tools/call and tools/list
alike — carries the constant integer id 1, reused on every call within
the session. -/
theorem request_id_fields (tool : String) (args : List (String × JVal)) :
    requestIdField (clientCallRequest tool args) = none ∧
    requestIdField clientListRequest = none ∧
    requestIdField (adapterCallRequest tool args) = some (JVal.num 1) ∧
    requestIdField adapterListRequest = some (JVal.num 1) :=
  ⟨rfl, rfl, rfl, rfl⟩

/-- Claim C2 counterexample: with the session running, a call whose
underlying process exits mid-call (readline yields EOF) returns a
failed response, and the session status after the call is still
`running` — it does not transition to the `error` state. -/
theorem mid_call_death_counterexample :
    (adapterCallTool MCPServerStatus.running "amass-mcp" AdapterRead.eof).2
      = MCPServerStatus.running ∧
    ¬ (adapterCallTool MCPServerStatus.running "amass-mcp" AdapterRead.eof).2
        = MCPServerStatus.error ∧
    (adapterCallTool MCPServerStatus.running "amass-mcp" AdapterRead.eof).1.success = false ∧
    (adapterCallTool MCPServerStatus.running "amass-mcp" AdapterRead.eof).1.error
      = some "No response from MCP server" := by
  exact ⟨rfl, by decide, rfl, rfl⟩

/-- Claim C2 (amended): a tool call whose process exits mid-call
returns a structured failure (success false, error message "No response
from MCP server") and leaves the adapter session's stored status
unchanged at `running`; `MCPClient`'s derived status query reports
"failed" for a process that has exited. -/
theorem mid_call_death_behavior (serverName : String) (c : Int) :
    (adapterCallTool MCPServerStatus.running serverName AdapterRead.eof).1.success = false ∧
    (adapterCallTool MCPServerStatus.running serverName AdapterRead.eof).1.error
      = some "No response from MCP server" ∧
    (adapterCallTool MCPServerStatus.running serverName AdapterRead.eof).2
      = MCPServerStatus.running ∧
    getServerStatus true (ProcField.proc (some c)) = "failed" :=
  ⟨rfl, rfl, rfl, rfl⟩

/-- Claim C5: a single-server call whose target is unknown or disabled
returns a structured failure — an error dict whose success reading is
false and whose error message is set — and the manager returns a failed
`MCPResponse` for unregistered names; none of these paths raises. -/
theorem call_tool_unknown_disabled_structured
    (servers : List (String × ClientServer)) (serverName : String) (read : ClientRead)
    (registered : List String) (delegated : MCPResponse) :
    (servers.lookup serverName = none →
        clientCallTool servers serverName read
          = ClientCallResult.errDict ("Server " ++ serverName ++ " not found")) ∧
    (∀ server, servers.lookup serverName = some server → server.enabled = false →
        clientCallTool servers serverName read
          = ClientCallResult.errDict ("Server " ++ serverName ++ " is disabled")) ∧
    (∀ msg, clientResultSuccess (ClientCallResult.errDict msg) = false ∧
        clientResultError (ClientCallResult.errDict msg) = some msg) ∧
    (serverName ∉ registered →
        (managerCallTool registered serverName delegated).success = false ∧
        (managerCallTool registered serverName delegated).error
          = some ("Server " ++ serverName ++ " not registered")) := by
  refine ⟨?_, ?_, fun msg => ⟨rfl, rfl⟩, ?_⟩
  · intro h
    simp [clientCallTool, h]
  · intro server h hen
    simp [clientCallTool, h, hen]
  · intro h
    simp [managerCallTool, h]

/-- Witness for C5: an unknown name against a one-server registry, a
disabled server called by name, and an unregistered name at the
manager. -/
theorem call_tool_unknown_disabled_structured_witness :
    ([("amass-mcp", (⟨true, ProcField.noProc⟩ : ClientServer))].lookup "ghost" = none) ∧
    clientCallTool [("amass-mcp", ⟨true, ProcField.noProc⟩)] "ghost" ClientRead.eof
      = ClientCallResult.errDict "Server ghost not found" ∧
    clientCallTool [("amass-mcp", ⟨false, ProcField.noProc⟩)] "amass-mcp" ClientRead.eof
      = ClientCallResult.errDict "Server amass-mcp is disabled" ∧
    ("ghost" ∉ ["amass-mcp"]) ∧
    (managerCallTool ["amass-mcp"] "ghost" ⟨true, none, none, none⟩).success = false :=
  ⟨by decide,
    (call_tool_unknown_disabled_structured [("amass-mcp", ⟨true, ProcField.noProc⟩)]
      "ghost" ClientRead.eof ["amass-mcp"] ⟨true, none, none, none⟩).1 (by decide),
    (call_tool_unknown_disabled_structured [("amass-mcp", ⟨false, ProcField.noProc⟩)]
      "amass-mcp" ClientRead.eof ["amass-mcp"] ⟨true, none, none, none⟩).2.1
      ⟨false, ProcField.noProc⟩ (by decide) rfl,
    by decide,
    ((call_tool_unknown_disabled_structured [("amass-mcp", ⟨true, ProcField.noProc⟩)]
      "ghost" ClientRead.eof ["amass-mcp"] ⟨true, none, none, none⟩).2.2.2 (by decide)).1⟩

/-! ### Process lifecycle: start/connect and stop/disconnect

Embeddings of `AmasseMCPClient.connect`, `MCPClient.start_server`,
`AmasseMCPClient.disconnect`, `MCPClient.stop_server` and
`MCPManager.disconnect_all`.  The environment is described by how the
spawn attempt goes and how the child process reacts to signals; each
embedded function reports the signals it sent, the grace periods it
allowed, and whether the child was waited on (reaped) by return
time. -/

/-- Outcome of spawning the child: the spawn call raises, or a process
is created that either is still alive once the startup grace period
elapses or has exited by then, with the given stderr text. -/
inductive SpawnOutcome where
  | spawnRaises (msg : String)
  | spawned (aliveAfterGrace : Bool) (stderrText : String)
deriving DecidableEq, Repr

/-- Startup grace `AmasseMCPClient.connect` sleeps after spawning:
`await asyncio.sleep(2)` (src/src/mcp_adapter.py, line 97). -/
def adapterConnectGrace : Nat := 2

/-- Startup grace `MCPClient.start_server` sleeps after spawning:
`await asyncio.sleep(1)` (src/src/mcp_client.py, line 97). -/
def clientStartGrace : Nat := 1

/-- Result of `AmasseMCPClient.connect`: the returned boolean, the
stored status, the grace period slept (`none` when the spawn raised
before the sleep), and the stderr text read on the early-exit path. -/
structure ConnectOutcome where
  ok : Bool
  status : MCPServerStatus
  sleptGrace : Option Nat
  capturedStderr : Option String
deriving DecidableEq, Repr

/-- Embeds `AmasseMCPClient.connect` (src/src/mcp_adapter.py, lines
80-112). -/
def adapterConnect (spawn : SpawnOutcome) : ConnectOutcome :=
  match spawn with
  | .spawnRaises _ => ⟨false, .error, none, none⟩
  | .spawned true _ => ⟨true, .running, some adapterConnectGrace, none⟩
  | .spawned false stderrText =>
      ⟨false, .error, some adapterConnectGrace, some stderrText⟩

/-- Result of `MCPClient.start_server`: the returned boolean, the grace
period slept, and the stderr captured (this function never reads
stderr). -/
structure StartOutcome where
  ok : Bool
  sleptGrace : Option Nat
  capturedStderr : Option String
deriving DecidableEq, Repr

/-- Embeds `MCPClient.start_server` (src/src/mcp_client.py, lines
69-108): unknown names, disabled servers and unknown server types
return `False` before spawning; a spawn exception is caught and returns
`False`; otherwise the process's liveness after the 1-unit sleep
decides the result, with stderr never read. -/
def clientStartServer (known enabled : Bool) (serverType : String)
    (spawn : SpawnOutcome) : StartOutcome :=
  if !known then ⟨false, none, none⟩
  else if !enabled then ⟨false, none, none⟩
  else if serverType ≠ "amass" then ⟨false, none, none⟩
  else
    match spawn with
    | .spawnRaises _ => ⟨false, none, none⟩
    | .spawned true _ => ⟨true, some clientStartGrace, none⟩
    | .spawned false _ => ⟨false, some clientStartGrace, none⟩

/-- How the child process behaves when a stop path runs. -/
inductive ProcBehavior where
  | exitsWithinGrace
  | ignoresTerminate
  | alreadyExited
deriving DecidableEq, Repr

/-- Process-control actions a stop path can perform, in order. -/
inductive StopAction where
  | terminate
  | kill
  | waitReap
deriving DecidableEq, Repr

/-- Grace `MCPClient.stop_server` allows before force-killing:
`asyncio.wait_for(server.process.wait(), timeout=5.0)`. -/
def clientStopGrace : Nat := 5

/-- Grace `AmasseMCPClient.disconnect` allows before force-killing:
`asyncio.wait_for(..., timeout=5)`. -/
def adapterStopGrace : Nat := 5

/-- What a run of `MCPClient.stop_server` did. -/
structure ClientStopOutcome where
  actions : List StopAction
  graceAllowed : Option Nat
  reaped : Bool
  caught : Bool
  raised : Bool
deriving DecidableEq, Repr

/-- Embeds `MCPClient.stop_server` (src/src/mcp_client.py, lines
110-127).  Unknown names and absent processes return at once.  On the
grace-period timeout the process is killed and then waited on.  For a
process that already exited, `terminate()` raises and the generic
handler catches it, so nothing reaches the caller. -/
def clientStopServer (known : Bool) (p : Option ProcBehavior) : ClientStopOutcome :=
  if !known then ⟨[], none, true, false, false⟩
  else
    match p with
    | none => ⟨[], none, true, false, false⟩
    | some .exitsWithinGrace =>
        ⟨[.terminate, .waitReap], some clientStopGrace, true, false, false⟩
    | some .ignoresTerminate =>
        ⟨[.terminate, .kill, .waitReap], some clientStopGrace, true, false, false⟩
    | some .alreadyExited => ⟨[], none, true, true, false⟩

/-- What a run of `AmasseMCPClient.disconnect` did. -/
structure AdapterStopOutcome where
  actions : List StopAction
  graceAllowed : Option Nat
  newStatus : MCPServerStatus
  returned : Bool
  reaped : Bool
deriving DecidableEq, Repr

/-- Embeds `AmasseMCPClient.disconnect` (src/src/mcp_adapter.py, lines
114-134).  The guard `self.process and self.process.poll() is None`
skips signalling whenever there is no live process; on the grace-period
timeout the process is killed but never waited on afterwards; the
status is set to `stopped` and `True` returned on every one of these
paths. -/
def adapterDisconnect (p : Option ProcBehavior) : AdapterStopOutcome :=
  match p with
  | none => ⟨[], none, .stopped, true, true⟩
  | some .alreadyExited => ⟨[], none, .stopped, true, true⟩
  | some .exitsWithinGrace =>
      ⟨[.terminate, .waitReap], some adapterStopGrace, .stopped, true, true⟩
  | some .ignoresTerminate =>
      ⟨[.terminate, .kill], some adapterStopGrace, .stopped, true, false⟩

/-- The process state of a client after `disconnect`: whatever process
it had is dead afterwards; the handle itself is kept. -/
def afterDisconnect : Option ProcBehavior → Option ProcBehavior
  | none => none
  | some _ => some .alreadyExited

/-- Embeds `MCPManager.disconnect_all` (src/src/mcp_adapter.py, lines
266-271): disconnects every registered client in turn and collects the
per-server booleans; also returns the post-call process states. -/
def adapterDisconnectAll (clients : List (String × Option ProcBehavior)) :
    List (String × Bool) × List (String × Option ProcBehavior) :=
  (clients.map fun c => (c.1, (adapterDisconnect c.2).returned),
   clients.map fun c => (c.1, afterDisconnect c.2))

/-- Claim C8 counterexample: when the process ignores the terminate
signal, `AmasseMCPClient.disconnect` force-kills after the grace period
but performs no wait afterwards, so the child is not reaped by the time
the call returns — the code does not always wait for process reap. -/
theorem stop_reap_counterexample :
    (adapterDisconnect (some ProcBehavior.ignoresTerminate)).actions
      = [StopAction.terminate, StopAction.kill] ∧
    StopAction.waitReap ∉ (adapterDisconnect (some ProcBehavior.ignoresTerminate)).actions ∧
    (adapterDisconnect (some ProcBehavior.ignoresTerminate)).reaped = false :=
  ⟨rfl, by decide, rfl⟩

/-- Claim C8 (amended): both stop paths send terminate and force-kill
only after a 5-unit grace; `MCPClient.stop_server` always waits for the
child (also after a force-kill), while `AmasseMCPClient.disconnect`
does not wait after a force-kill; stopping an already-stopped handle
signals nothing and raises nothing; and `disconnect_all` run twice in a
row, or with zero servers, returns per-server `True` without
signalling. -/
theorem stop_idempotent_behavior (clients : List (String × Option ProcBehavior)) :
    clientStopServer true (some ProcBehavior.exitsWithinGrace)
      = ⟨[StopAction.terminate, StopAction.waitReap], some 5, true, false, false⟩ ∧
    clientStopServer true (some ProcBehavior.ignoresTerminate)
      = ⟨[StopAction.terminate, StopAction.kill, StopAction.waitReap], some 5, true, false,
          false⟩ ∧
    clientStopServer true (some ProcBehavior.alreadyExited)
      = ⟨[], none, true, true, false⟩ ∧
    adapterDisconnect (some ProcBehavior.exitsWithinGrace)
      = ⟨[StopAction.terminate, StopAction.waitReap], some 5, MCPServerStatus.stopped, true,
          true⟩ ∧
    adapterDisconnect (some ProcBehavior.ignoresTerminate)
      = ⟨[StopAction.terminate, StopAction.kill], some 5, MCPServerStatus.stopped, true,
          false⟩ ∧
    adapterDisconnect (some ProcBehavior.alreadyExited)
      = ⟨[], none, MCPServerStatus.stopped, true, true⟩ ∧
    adapterDisconnectAll [] = ([], []) ∧
    ((adapterDisconnectAll ((adapterDisconnectAll clients).2)).1.all fun c => c.2) = true ∧
    (((adapterDisconnectAll clients).2).all fun c =>
        (adapterDisconnect c.2).actions.isEmpty) = true := by
  refine ⟨rfl, rfl, rfl, rfl, rfl, rfl, rfl, ?_, ?_⟩
  · rw [List.all_eq_true]
    intro x hmem
    simp only [adapterDisconnectAll, List.map_map, List.mem_map] at hmem
    obtain ⟨⟨m, pb⟩, _, hc⟩ := hmem
    cases hc
    cases pb <;> rfl
  · rw [List.all_eq_true]
    intro x hmem
    simp only [adapterDisconnectAll, List.mem_map] at hmem
    obtain ⟨⟨m, pb⟩, _, hc⟩ := hmem
    cases hc
    cases pb <;> rfl

/-- Claim C9 counterexample: `MCPClient.start_server` sleeps a 1-unit
grace period, not the claimed 2 units, and on an early exit it captures
no stderr content. -/
theorem start_grace_counterexample :
    (clientStartServer true true "amass" (SpawnOutcome.spawned true "")).sleptGrace
      = some 1 ∧
    ¬ (clientStartServer true true "amass" (SpawnOutcome.spawned true "")).sleptGrace
        = some 2 ∧
    (clientStartServer true true "amass"
        (SpawnOutcome.spawned false "amass binary not found")).capturedStderr = none :=
  ⟨rfl, by decide, rfl⟩

/-- Claim C9 (amended): `AmasseMCPClient.connect` sleeps a 2-unit grace
period after spawning, succeeds iff the process is still alive
afterwards, captures stderr into the failure path when the process
exited early, and converts a spawn exception into a failed, `error`
status start; `MCPClient.start_server` does the same with a 1-unit
grace period and never captures stderr. -/
theorem start_grace_behavior (stderrText msg : String) :
    adapterConnect (SpawnOutcome.spawned true stderrText)
      = ⟨true, MCPServerStatus.running, some 2, none⟩ ∧
    adapterConnect (SpawnOutcome.spawned false stderrText)
      = ⟨false, MCPServerStatus.error, some 2, some stderrText⟩ ∧
    adapterConnect (SpawnOutcome.spawnRaises msg)
      = ⟨false, MCPServerStatus.error, none, none⟩ ∧
    clientStartServer true true "amass" (SpawnOutcome.spawned true stderrText)
      = ⟨true, some 1, none⟩ ∧
    clientStartServer true true "amass" (SpawnOutcome.spawned false stderrText)
      = ⟨false, some 1, none⟩ ∧
    clientStartServer true true "amass" (SpawnOutcome.spawnRaises msg)
      = ⟨false, none, none⟩ :=
  ⟨rfl, rfl, rfl, rfl, rfl, rfl⟩

end SecMCP
